import Mathlib

/-!
Shallow embedding of the QR-scanner session controller
(`QrScannerComponent` in the repository's qr-scanner component file).

The component's mutable fields become a `ScannerState`; the surrounding
browser environment (media streams, decoder controls, device listings,
track capabilities) is modelled by identifiers and by parameters on the
events that the environment delivers.  Resource accounting that the real
tracks perform (`track.stop()`, `controls.stop()`) is logged explicitly in
a `Sys` wrapper so that release and cancellation behaviour is observable.
-/

namespace QrScanner

/-- JavaScript whitespace as removed by `String.prototype.trim`:
WhiteSpace (tab, vertical tab, form feed, space, NBSP, BOM, the Zs
category) and LineTerminator (LF, CR, LS, PS). -/
def isJsSpace (c : Char) : Bool :=
  c = ' ' || c = '\t' || c = '\n' || c = '\r' ||
  c.val = 0x0b || c.val = 0x0c || c.val = 0xa0 || c.val = 0xfeff ||
  c.val = 0x1680 || (0x2000 ≤ c.val && c.val ≤ 0x200a) ||
  c.val = 0x202f || c.val = 0x205f || c.val = 0x3000 ||
  c.val = 0x2028 || c.val = 0x2029

/-- Model of JavaScript `String.prototype.trim`, as applied to the decoded
payload by `result.getText().trim()`. -/
def jsTrim (s : String) : String :=
  String.mk (((s.data.dropWhile isJsSpace).reverse.dropWhile isJsSpace).reverse)

/-- One entry of the device list, as consumed by the component
(`MediaDeviceInfo`: only `deviceId` and `kind` are read by the code). -/
structure MediaDeviceInfo where
  deviceId : String
  kind : String
deriving DecidableEq, Repr

/-- The error kinds distinguished by `mapError` (the `name` property of the
raw error), plus `other` for every unclassified kind. -/
inductive ErrName where
  | notAllowed
  | notFound
  | notReadable
  | overconstrained
  | security
  | other
deriving DecidableEq, Repr

/-- `mapError` (source: the `switch` on the error's name): maps the five
classified kinds to their user-facing messages and everything else to
`null`. -/
def mapError : ErrName → Option String
  | .notAllowed => some "تم رفض إذن الكاميرا."
  | .notFound => some "لا توجد كاميرا متاحة."
  | .notReadable => some "تعذّر فتح الكاميرا (قد تكون مستخدمة)."
  | .overconstrained => some "قيود الكاميرا غير مدعومة على هذا الجهاز."
  | .security => some "الدخول للكاميرا مرفوض لأسباب أمنية (تحقّق من HTTPS)."
  | .other => none

/-- The component's mutable fields.  `controls` and stream handles are
identifiers for the opaque browser objects; `srcObject` is the stream the
video element currently displays and `stream` is the component's own
`this.stream` field. -/
structure ScannerState where
  controls : Option Nat
  stream : Option Nat
  srcObject : Option Nat
  devices : List MediaDeviceInfo
  selectedDeviceId : Option String
  scanning : Bool
  resultText : String
  errorMsg : Option String
  hasTorch : Bool
  torchOn : Bool
deriving DecidableEq, Repr

/-- The component state together with an environment log: which streams
have been opened, each track-release attempt (one entry per stream whose
tracks `stopTracks` actually stops), and each `controls.stop()` call. -/
structure Sys where
  comp : ScannerState
  acquiredStreams : List Nat
  releasedStreams : List Nat
  controlsStopped : List Nat
deriving DecidableEq, Repr

/-- Initial component state: no handles, empty catalog, idle flags. -/
def initState : ScannerState :=
  ⟨none, none, none, [], none, false, "", none, false, false⟩

/-- Initial system: initial component state, nothing opened or released. -/
def initSys : Sys := ⟨initState, [], [], []⟩

/-- The stream whose tracks `stopTracks` targets:
`(videoRef.nativeElement.srcObject as MediaStream) || this.stream`. -/
def attachedStream (c : ScannerState) : Option Nat :=
  match c.srcObject with
  | some x => some x
  | none => c.stream

/-- `stopTracks`: stops every track of the attached stream (if any),
clears the video sink and the stored stream reference.  The release
attempt, when one happens, is logged. -/
def stopTracks (σ : Sys) : Sys :=
  { comp := { σ.comp with srcObject := none, stream := none }
    acquiredStreams := σ.acquiredStreams
    releasedStreams := σ.releasedStreams ++ (attachedStream σ.comp).toList
    controlsStopped := σ.controlsStopped }

/-- `stopScan`: `controls?.stop()`, drop the handle, `stopTracks()`, then
clear the `scanning` and `torchOn` flags. -/
def stopScan (σ : Sys) : Sys :=
  let σ1 : Sys :=
    { σ with
      comp := { σ.comp with controls := none }
      controlsStopped := σ.controlsStopped ++ (σ.comp.controls).toList }
  let σ2 := stopTracks σ1
  { σ2 with comp := { σ2.comp with scanning := false, torchOn := false } }

/-- `setError`: records the message, clears the `scanning` flag and
releases the tracks.  It does not touch the controls handle. -/
def setError (msg : String) (σ : Sys) : Sys :=
  stopTracks { σ with comp := { σ.comp with errorMsg := some msg, scanning := false } }

/-- The synchronous prefix of `startScan`: set `scanning`, clear the
previous result, error and torch flags.  Stream acquisition and decode
callbacks are separate asynchronous events. -/
def startScanSync (σ : Sys) : Sys :=
  { σ with comp := { σ.comp with
      scanning := true, errorMsg := none, resultText := "",
      torchOn := false, hasTorch := false } }

/-- The decoder machinery opening a stream and attaching it to the video
element (inside `decodeFromConstraints`, before callbacks fire). -/
def acquireStream (sid : Nat) (σ : Sys) : Sys :=
  { σ with
    comp := { σ.comp with srcObject := some sid }
    acquiredStreams := σ.acquiredStreams ++ [sid] }

/-- The `.catch` handler of `decodeFromConstraints`: surface the mapped
message (or the generic start-failure message) and clear `scanning`. -/
def startScanFail (e : ErrName) (σ : Sys) : Sys :=
  let msg := match mapError e with
    | some m => m
    | none => "فشل بدء المسح."
  let σ1 := setError msg σ
  { σ1 with comp := { σ1.comp with scanning := false } }

/-- `detectTorchSupport`: probes the first video track's capabilities.
`capTorch` is the environment's answer for the track's reported torch
capability; when no stream is held the probe yields `undefined`
capabilities and `hasTorch` becomes false regardless. -/
def detectTorchSupport (capTorch : Bool) (σ : Sys) : Sys :=
  let ht := match σ.comp.stream with
    | some _ => capTorch
    | none => false
  { σ with comp := { σ.comp with hasTorch := ht } }

/-- The decode-loop callback passed to `decodeFromConstraints`: adopt the
controls handle if none is held, refresh the stream reference from the
video sink, re-detect torch support, then handle a result or an error. -/
def decodeCallback (res : Option String) (e : Option ErrName) (cid : Nat)
    (capTorch : Bool) (σ : Sys) : Sys :=
  let σ1 : Sys := { σ with comp := { σ.comp with
      controls := match σ.comp.controls with
        | some c => some c
        | none => some cid } }
  let σ2 : Sys := { σ1 with comp := { σ1.comp with
      stream := match σ1.comp.srcObject with
        | some x => some x
        | none => σ1.comp.stream } }
  let σ3 := detectTorchSupport capTorch σ2
  match res with
  | some txt =>
      stopScan { σ3 with comp := { σ3.comp with resultText := jsTrim txt } }
  | none =>
      match e with
      | some err =>
          match mapError err with
          | some msg => setError msg σ3
          | none => σ3
      | none => σ3

/-- `toggleTorch`: no-op when torch is unsupported; otherwise flip the
flag and apply it as an advanced constraint.  `ok` is the environment's
answer for whether `applyConstraints` succeeded; on failure both torch
flags are reset. -/
def toggleTorch (ok : Bool) (σ : Sys) : Sys :=
  if σ.comp.hasTorch then
    let σ1 : Sys := { σ with comp := { σ.comp with torchOn := !σ.comp.torchOn } }
    if ok then σ1
    else { σ1 with comp := { σ1.comp with torchOn := false, hasTorch := false } }
  else σ

/-- `onDeviceChange`: record the new selection (empty string becomes
unset) and stop a running scan. -/
def onDeviceChange (id : String) (σ : Sys) : Sys :=
  let σ1 : Sys := { σ with comp := { σ.comp with
      selectedDeviceId := if id = "" then none else some id } }
  if σ1.comp.scanning then stopScan σ1 else σ1

/-- `handleVisibility`: stop the scan when the document becomes hidden
while scanning. -/
def handleVisibility (hidden : Bool) (σ : Sys) : Sys :=
  if hidden && σ.comp.scanning then stopScan σ else σ

/-- The successful path of `refreshDevices`: take the primary listing,
fall back to the generic enumeration filtered to video inputs when the
primary listing is empty and the fallback is available, then set the
selection from the first device (`first?.deviceId || undefined`). -/
def refreshDevicesOk (primary : List MediaDeviceInfo) (fallbackAvail : Bool)
    (allDevs : List MediaDeviceInfo) (σ : Sys) : Sys :=
  let devs := if primary.isEmpty && fallbackAvail then
      allDevs.filter (fun d => d.kind = "videoinput")
    else primary
  let sel : Option String := match devs.head? with
    | some d => if d.deviceId = "" then none else some d.deviceId
    | none => none
  { σ with comp := { σ.comp with devices := devs, selectedDeviceId := sel } }

/-- The `catch` branch of `refreshDevices`: the listing failure is caught,
logged, and surfaced through `setError` with the generic message.  The
`try` block has two await points that can reject.  `fallbackFailed =
false` models the primary listing itself rejecting: the `devices`
assignment never ran.  `fallbackFailed = true` models the fallback
enumeration rejecting: that await is reached only after `devices` was
assigned the primary result and only when that result was empty, so the
device list has already been overwritten with the empty list when the
`catch` runs. -/
def refreshDevicesFail (fallbackFailed : Bool) (σ : Sys) : Sys :=
  let σ0 : Sys := match fallbackFailed with
    | true => { σ with comp := { σ.comp with devices := [] } }
    | false => σ
  setError "تعذّر الوصول لأجهزة الكاميرا." σ0

/-- Every operation of the session together with the environment inputs it
consumes (decode results, error kinds, controls handles, capability
probes, listing outcomes, constraint-application outcomes). -/
inductive Event where
  | start
  | acquire (sid : Nat)
  | startFail (e : ErrName)
  | cb (res : Option String) (e : Option ErrName) (cid : Nat) (capTorch : Bool)
  | stop
  | deviceChange (id : String)
  | visibility (hidden : Bool)
  | refreshOk (primary : List MediaDeviceInfo) (fallbackAvail : Bool)
      (allDevs : List MediaDeviceInfo)
  | refreshFail (fallbackFailed : Bool)
  | toggle (ok : Bool)
deriving DecidableEq, Repr

/-- One step of the session: dispatch an event to the matching operation. -/
def step (σ : Sys) : Event → Sys
  | .start => startScanSync σ
  | .acquire sid => acquireStream sid σ
  | .startFail e => startScanFail e σ
  | .cb res e cid cap => decodeCallback res e cid cap σ
  | .stop => stopScan σ
  | .deviceChange id => onDeviceChange id σ
  | .visibility h => handleVisibility h σ
  | .refreshOk p f a => refreshDevicesOk p f a σ
  | .refreshFail fb => refreshDevicesFail fb σ
  | .toggle ok => toggleTorch ok σ

/-- Run a sequence of events from the initial system. -/
def run (es : List Event) : Sys := es.foldl step initSys

/-- The streams opened so far whose tracks have never been stopped. -/
def openStreams (σ : Sys) : List Nat :=
  σ.acquiredStreams.filter (fun sid => !(σ.releasedStreams.contains sid))

/-- Recognizes decode-loop callback events. -/
def isCbEvent : Event → Bool
  | .cb _ _ _ _ => true
  | _ => false

/-- The torch invariant claimed by the specification. -/
def torchInv (σ : Sys) : Prop :=
  σ.comp.torchOn = true → σ.comp.hasTorch = true

instance (σ : Sys) : Decidable (torchInv σ) := by
  unfold torchInv; infer_instance

/-! ### URL helper

The browser `URL` constructor is an external platform capability; the
model below captures the WHATWG behaviour `isUrl` observes: a URL string
must start with a scheme (ASCII letter, then letters, digits, `+`, `-`,
`.`) followed by `:`; the scheme is lowercased; the special network
schemes require a nonempty host after optional slashes; any other scheme
parses with the remainder as an opaque path. -/

/-- Scheme characters after the first (WHATWG scheme state). -/
def isSchemeChar (c : Char) : Bool :=
  c.isAlphanum || c = '+' || c = '-' || c = '.'

/-- Splits off the scheme: accumulates scheme characters until the first
`:`; fails if a non-scheme character or the end is reached first. -/
def schemeSplit : List Char → List Char → Option (List Char × List Char)
  | _, [] => none
  | acc, c :: rest =>
    if c = ':' then some (acc.reverse, rest)
    else if isSchemeChar c then schemeSplit (c :: acc) rest
    else none

/-- The schemes the WHATWG parser treats as special and for which a
nonempty host is required (`file` is special but allows an empty host). -/
def specialSchemes : List String := ["http", "https", "ws", "wss", "ftp"]

/-- What the `URL` constructor exposes of a parsed URL, as read by
`isUrl`: the `protocol` (scheme plus trailing colon) and the host. -/
structure URLRec where
  protocol : String
  host : String
deriving DecidableEq, Repr

/-- Model of the `URL` constructor: `none` models the constructor
throwing. -/
def urlParse (v : String) : Option URLRec :=
  match v.data with
  | [] => none
  | c :: rest =>
    if c.isAlpha then
      match schemeSplit [c] rest with
      | none => none
      | some (sch, tail) =>
        let scheme := String.mk (sch.map Char.toLower)
        if specialSchemes.contains scheme then
          let afterSlashes := tail.dropWhile (fun d => d = '/' || d = '\\')
          let host := afterSlashes.takeWhile
            (fun d => !(d = '/' || d = '?' || d = '#' || d = '\\'))
          if host.isEmpty then none
          else some ⟨scheme ++ ":", String.mk host⟩
        else some ⟨scheme ++ ":", ""⟩
    else none

/-- `isUrl`: construct a URL and test the protocol; a parse failure means
false. -/
def isUrl (v : String) : Bool :=
  match urlParse v with
  | some u => u.protocol = "http:" || u.protocol = "https:"
  | none => false



/-- A reachable system state in which torch support has been detected:
one session started, a stream acquired, one decode-loop invocation with a
torch-capable track. -/
def sysTorch : Sys := run [.start, .acquire 1, .cb none none 7 true]

/-!  ## Claims  -/

/-- Claim C5: a decode-loop invocation that carries a result payload sets
`resultText` to the payload with leading and trailing whitespace removed,
leaves the Scanning state (`scanning` becomes false with no error
recorded by this path, i.e. the session is Stopped, not Error), and tears
the session down: the effective controls handle is stopped, both stream
references are cleared, and the attached stream's tracks are released. -/
theorem C5_result_invocation (σ : Sys) (txt : String) (e : Option ErrName)
    (cid : Nat) (cap : Bool) :
    let σ' := step σ (.cb (some txt) e cid cap)
    σ'.comp.resultText = jsTrim txt ∧
    σ'.comp.scanning = false ∧
    σ'.comp.errorMsg = σ.comp.errorMsg ∧
    σ'.comp.torchOn = false ∧
    σ'.comp.controls = none ∧
    σ'.comp.srcObject = none ∧
    σ'.comp.stream = none ∧
    σ'.controlsStopped = σ.controlsStopped ++ [σ.comp.controls.getD cid] ∧
    σ'.releasedStreams = σ.releasedStreams ++ (attachedStream σ.comp).toList := by
  rcases σ with ⟨⟨c, st, so, dv, sel, sc, rt, em, ht, ton⟩, aq, rel, cs⟩
  cases c <;> cases so <;>
    simp [step, decodeCallback, detectTorchSupport, stopScan, stopTracks,
      attachedStream]

/-- Claim C10: `stopScan` never modifies `resultText` or `errorMsg`, so a
decoded payload or a recorded error stays observable after the session is
stopped; they are cleared by the next `startScan`. -/
theorem C10_stop_frame (σ : Sys) :
    (step σ .stop).comp.resultText = σ.comp.resultText ∧
    (step σ .stop).comp.errorMsg = σ.comp.errorMsg ∧
    (step σ .start).comp.resultText = "" ∧
    (step σ .start).comp.errorMsg = none := by
  exact ⟨rfl, rfl, rfl, rfl⟩

/-- Claim C6: `toggleTorch` with the torch-supported flag false is a
complete no-op; with the flag true it flips the torch-on flag when the
constraint application succeeds, and on failure resets both torch flags
to false. -/
theorem C6_toggleTorch_cases (σ : Sys) (ok : Bool) :
    (σ.comp.hasTorch = false → step σ (.toggle ok) = σ) ∧
    (σ.comp.hasTorch = true → ok = true →
      step σ (.toggle ok)
        = { σ with comp := { σ.comp with torchOn := !σ.comp.torchOn } }) ∧
    (σ.comp.hasTorch = true → ok = false →
      (step σ (.toggle ok)).comp.torchOn = false ∧
      (step σ (.toggle ok)).comp.hasTorch = false) := by
  refine ⟨fun h => ?_, fun h hok => ?_, fun h hok => ?_⟩
  · simp [step, toggleTorch, h]
  · simp [step, toggleTorch, h, hok]
  · simp [step, toggleTorch, h, hok]

/-- Witness for C6 at concrete states: the initial state is a no-op case,
and a state with torch support exercises the success and failure cases. -/
theorem C6_toggleTorch_witness :
    (step initSys (.toggle true) = initSys) ∧
    ((step sysTorch (.toggle true)).comp.torchOn = true) ∧
    ((step sysTorch (.toggle false)).comp.torchOn = false ∧
      (step sysTorch (.toggle false)).comp.hasTorch = false) := by
  refine ⟨(C6_toggleTorch_cases initSys true).1 (by decide), ?_, ?_⟩
  · rw [(C6_toggleTorch_cases sysTorch true).2.1 (by decide) rfl]; decide
  · exact (C6_toggleTorch_cases sysTorch false).2.2 (by decide) rfl

/-- Claim C9: `isUrl` returns true exactly when the string parses as an
absolute URL whose protocol is `http:` or `https:`, and in particular on
the three documented examples. -/
theorem C9_isUrl_spec (v : String) :
    (isUrl v = true ↔
      ∃ r, urlParse v = some r ∧ (r.protocol = "http:" ∨ r.protocol = "https:")) ∧
    isUrl "https://example.com" = true ∧
    isUrl "ftp://x" = false ∧
    isUrl "not a url" = false := by
  refine ⟨?_, by decide, by decide, by decide⟩
  cases h : urlParse v with
  | none => simp [isUrl, h]
  | some u => simp [isUrl, h]

/-- A trace in which a decode-loop invocation delivers a classified error
(NotAllowedError) to a running session. -/
def c1Trace : List Event :=
  [.start, .acquire 1, .cb none (some .notAllowed) 7 false]

/-- Claim C1 counterexample: after the classified-error invocation the
error message is recorded, scanning has ended and the tracks are
released, but the controls handle is NOT stopped (the handle is still
held and no stop was issued), and a later decode-loop invocation is still
honored: it overwrites `resultText`. -/
theorem C1_counterexample :
    (run c1Trace).comp.errorMsg = some "تم رفض إذن الكاميرا." ∧
    (run c1Trace).comp.scanning = false ∧
    (run c1Trace).releasedStreams = [1] ∧
    (run c1Trace).controlsStopped = [] ∧
    (run c1Trace).comp.controls = some 7 ∧
    (step (run c1Trace) (.cb (some " hi ") none 7 false)).comp.resultText = "hi" := by
  decide

/-- Claim C1 (amended): a decode-loop invocation carrying an error whose
kind maps to a classified category records that category's message, sets
`scanning` to false and releases the attached stream's tracks, but the
controls handle is not stopped: the handle is kept (or adopted) and no
stop is issued, so further decode-loop invocations are still processed. -/
theorem C1_classified_error (σ : Sys) (err : ErrName) (msg : String)
    (cid : Nat) (cap : Bool) (h : mapError err = some msg) :
    let σ' := step σ (.cb none (some err) cid cap)
    σ'.comp.errorMsg = some msg ∧
    σ'.comp.scanning = false ∧
    σ'.comp.srcObject = none ∧
    σ'.comp.stream = none ∧
    σ'.releasedStreams = σ.releasedStreams ++ (attachedStream σ.comp).toList ∧
    σ'.controlsStopped = σ.controlsStopped ∧
    σ'.comp.controls = some (σ.comp.controls.getD cid) := by
  rcases σ with ⟨⟨c, st, so, dv, sel, sc, rt, em, ht, ton⟩, aq, rel, cs⟩
  cases c <;> cases so <;>
    simp [step, decodeCallback, detectTorchSupport, setError, stopTracks,
      attachedStream, h]

/-- Witness for C1 (amended) at a concrete classified error. -/
theorem C1_classified_error_witness :
    (step initSys (.cb none (some .notAllowed) 7 false)).comp.errorMsg
      = some "تم رفض إذن الكاميرا." ∧
    (step initSys (.cb none (some .notAllowed) 7 false)).comp.scanning = false ∧
    (step initSys (.cb none (some .notAllowed) 7 false)).controlsStopped = [] := by
  have h := C1_classified_error initSys .notAllowed "تم رفض إذن الكاميرا." 7 false
    (by decide)
  exact ⟨h.1, h.2.1, h.2.2.2.2.2.1⟩

/-- A trace with a second `start` issued while the first session is still
scanning, after which the decoder acquires a second stream. -/
def c2Trace : List Event :=
  [.start, .acquire 1, .cb none none 7 false, .start, .acquire 2]

/-- Claim C2 counterexample: the second `start` is issued while the
session is Scanning, yet nothing of the previous session is stopped (no
release, no controls stop), and after the second acquisition two streams
are open at the same instant. -/
theorem C2_counterexample :
    (run [.start, .acquire 1, .cb none none 7 false]).comp.scanning = true ∧
    openStreams (run c2Trace) = [1, 2] ∧
    (run c2Trace).releasedStreams = [] ∧
    (run c2Trace).controlsStopped = [] := by
  decide

/-- Claim C2 (amended): `startScan` does not stop a previous session: the
start event leaves the controls handle, the stream references, the
release log and the controls-stop log unchanged, so a start issued while
Scanning releases nothing before the new stream is acquired; two streams
can then be open at once, as `c2Trace` shows. -/
theorem C2_start_no_teardown (σ : Sys) :
    (step σ .start).comp.controls = σ.comp.controls ∧
    (step σ .start).comp.stream = σ.comp.stream ∧
    (step σ .start).comp.srcObject = σ.comp.srcObject ∧
    (step σ .start).releasedStreams = σ.releasedStreams ∧
    (step σ .start).controlsStopped = σ.controlsStopped ∧
    (openStreams (run c2Trace)).length = 2 := by
  exact ⟨rfl, rfl, rfl, rfl, rfl, by decide⟩

/-- A running session holding stream 1. -/
def c3Trace : List Event := [.start, .acquire 1]

/-- Claim C3 counterexample: a device-listing failure during a scan does
terminate it: whichever await rejected, the scanning flag drops to false
and the active stream's tracks are released by the refresh failure. -/
theorem C3_counterexample :
    (run c3Trace).comp.scanning = true ∧
    (step (run c3Trace) (.refreshFail false)).comp.scanning = false ∧
    (step (run c3Trace) (.refreshFail false)).releasedStreams = [1] ∧
    (step (run c3Trace) (.refreshFail true)).comp.scanning = false ∧
    (step (run c3Trace) (.refreshFail true)).releasedStreams = [1] := by
  decide

/-- Claim C3 (amended): a device-listing failure is caught locally and
surfaced as the generic non-fatal message, leaving the selection
unchanged; the device list is unchanged when the primary listing itself
rejects, and is left as the empty primary result when the fallback
enumeration rejects (the assignment of the empty primary list precedes
the fallback await).  But because the failure path runs `setError`, it
also sets `scanning` to false and releases the attached stream's tracks,
so an in-progress scan is terminated (only the controls handle keeps
running). -/
theorem C3_refresh_failure (σ : Sys) (fb : Bool) :
    let σ' := step σ (.refreshFail fb)
    σ'.comp.errorMsg = some "تعذّر الوصول لأجهزة الكاميرا." ∧
    σ'.comp.scanning = false ∧
    σ'.comp.srcObject = none ∧
    σ'.comp.stream = none ∧
    σ'.releasedStreams = σ.releasedStreams ++ (attachedStream σ.comp).toList ∧
    σ'.comp.devices = (match fb with | true => [] | false => σ.comp.devices) ∧
    σ'.comp.selectedDeviceId = σ.comp.selectedDeviceId ∧
    σ'.comp.controls = σ.comp.controls := by
  cases fb <;> exact ⟨rfl, rfl, rfl, rfl, rfl, rfl, rfl, rfl⟩

/-- The single device delivered by the refresh in the C4 counterexample. -/
def c4Device : MediaDeviceInfo := ⟨"d1", "videoinput"⟩

/-- Claim C4 counterexample: with device "cam-2" already selected, a
successful catalog refresh listing device "d1" overwrites the selection
with "d1" instead of leaving it unchanged. -/
theorem C4_counterexample :
    (run [.deviceChange "cam-2"]).comp.selectedDeviceId = some "cam-2" ∧
    (step (run [.deviceChange "cam-2"])
        (.refreshOk [c4Device] false [])).comp.selectedDeviceId = some "d1" := by
  decide

/-- Claim C4 (amended): a successful catalog refresh always resets the
selected device from the refreshed list's first entry (its id, or unset
when the list is empty or the first id is empty), regardless of any prior
selection: the outcome is independent of the previously selected
device. -/
theorem C4_refresh_overwrites_selection (σ : Sys) (sel : Option String)
    (primary : List MediaDeviceInfo) (fb : Bool) (allDevs : List MediaDeviceInfo) :
    (step { σ with comp := { σ.comp with selectedDeviceId := sel } }
        (.refreshOk primary fb allDevs)).comp.selectedDeviceId
      = (step σ (.refreshOk primary fb allDevs)).comp.selectedDeviceId ∧
    (step σ (.refreshOk primary fb allDevs)).comp.selectedDeviceId
      = (match (step σ (.refreshOk primary fb allDevs)).comp.devices.head? with
         | some d => if d.deviceId = "" then none else some d.deviceId
         | none => none) := by
  exact ⟨rfl, rfl⟩

/-- Claim C7 counterexample: from a reachable state in which torch
support was detected, `stopScan` leaves the torch-supported flag set: it
does not clear both torch flags. -/
theorem C7_counterexample :
    sysTorch.comp.hasTorch = true ∧
    (step sysTorch .stop).comp.hasTorch = true := by
  decide

/-- Claim C7 (amended): `stopScan` is total and idempotent: from every
state it stops a held controls handle (none if none is held), drops the
handle, releases the attached stream's tracks once, clears the torch-on
flag and the scanning flag — but leaves the torch-supported flag
unchanged — and a second consecutive call changes nothing at all (in
particular no duplicate release or stop attempts). -/
theorem C7_stop_idempotent (σ : Sys) :
    let σ' := step σ .stop
    σ'.comp.scanning = false ∧
    σ'.comp.torchOn = false ∧
    σ'.comp.hasTorch = σ.comp.hasTorch ∧
    σ'.comp.controls = none ∧
    σ'.comp.srcObject = none ∧
    σ'.comp.stream = none ∧
    σ'.controlsStopped = σ.controlsStopped ++ (σ.comp.controls).toList ∧
    σ'.releasedStreams = σ.releasedStreams ++ (attachedStream σ.comp).toList ∧
    step σ' .stop = σ' := by
  refine ⟨rfl, rfl, rfl, rfl, rfl, rfl, rfl, rfl, ?_⟩
  simp [step, stopScan, stopTracks, attachedStream]

/-- The trace breaking the torch invariant: detect support, switch the
torch on, hit a classified error (which releases tracks but leaves the
controls running), then one more decode-loop invocation re-detects torch
as unsupported while the torch-on flag is still set. -/
def c8Trace : List Event :=
  [.start, .acquire 1, .cb none none 7 true, .toggle true,
   .cb none (some .notAllowed) 7 true, .cb none none 7 true]

/-- Claim C8 counterexample: a reachable state violates the invariant:
the torch-on flag is true while the torch-supported flag is false. -/
theorem C8_counterexample :
    (run c8Trace).comp.torchOn = true ∧
    (run c8Trace).comp.hasTorch = false := by
  decide

/-- Claim C8 (amended): the implication torch-on ⇒ torch-supported holds
initially and is preserved by every operation except a decode-loop
invocation; an invocation can break it, because re-detection may reset
the torch-supported flag while the torch-on flag is still set (reachable
after an error teardown, since the controls are never stopped there). -/
theorem C8_torch_invariant (σ : Sys) (e : Event) (hinv : torchInv σ)
    (hcb : isCbEvent e = false) :
    torchInv (step σ e) ∧ torchInv initSys := by
  refine ⟨?_, by decide⟩
  cases e with
  | start => simp [torchInv, step, startScanSync]
  | acquire sid =>
      simp only [torchInv, step, acquireStream] at hinv ⊢
      exact hinv
  | startFail er =>
      simp only [torchInv, step, startScanFail, setError, stopTracks] at hinv ⊢
      exact hinv
  | cb res er cid cap => simp [isCbEvent] at hcb
  | stop => simp [torchInv, step, stopScan, stopTracks]
  | deviceChange id =>
      simp only [torchInv, step, onDeviceChange] at hinv ⊢
      by_cases hs : σ.comp.scanning = true
      · simp [hs, stopScan, stopTracks]
      · simp only [hs, if_false, if_neg hs]
        exact hinv
  | visibility hid =>
      simp only [torchInv, step, handleVisibility] at hinv ⊢
      by_cases hs : (hid && σ.comp.scanning) = true
      · simp [hs, stopScan, stopTracks]
      · simp only [hs, if_neg hs, Bool.false_eq_true, if_false]
        exact hinv
  | refreshOk p f a =>
      simp only [torchInv, step, refreshDevicesOk] at hinv ⊢
      exact hinv
  | refreshFail fb =>
      cases fb <;>
        simp only [torchInv, step, refreshDevicesFail, setError, stopTracks]
          at hinv ⊢ <;>
        exact hinv
  | toggle ok =>
      simp only [torchInv, step, toggleTorch] at hinv ⊢
      by_cases ht : σ.comp.hasTorch
      · cases ok with
        | false => simp [ht]
        | true => simp [ht]
      · simp only [ht, Bool.false_eq_true, if_false, if_neg ht]
        intro h
        exact absurd (hinv h) ht

/-- Witness for C8 (amended): the invariant holds at the initial state
and is preserved there by a toggle event. -/
theorem C8_torch_invariant_witness :
    torchInv (step initSys (.toggle true)) ∧ torchInv initSys := by
  exact C8_torch_invariant initSys (.toggle true) (by decide) (by decide)

end QrScanner
